import Mathlib

/-!
Shallow embedding of the Smart-Lamp coordinator (gabrielmermer/Smart-Lamp).

The authoritative sources are:
* `src/src/lamp.py`            — class `SmartLamp` (the coordinator);
* `src/src/hardware.py`        — class `HardwareController`;
* `src/src/ml.py`              — `DataLogger.log_action` (ML training records);
* `src/src/config/settings.py` — defaults (brightness 80, colour 255/255/255,
  `ML_PREDICTION_CONFIDENCE_THRESHOLD = 0.75`, `AUTO_OFF_TIMEOUT_MINUTES = 30`);
* `src/src/config/hardware_config.py` — `BUTTON_DEBOUNCE_TIME = 0.3`,
  `COLOR_PRESETS`, `TEMPERATURE_COLORS`.

Machine integers of the Python code are modelled as `Int`; wall-clock times
(`datetime.now()` / `time.time()`) as `ℚ` in seconds; the float confidence
values compared against fixed decimal thresholds as `ℚ`.

Side effects that the claims mention (hardware writes, ML training records,
database lamp-state log rows) are made explicit: every operation returns the
new in-memory controller state together with the lists of effects it emitted,
in program order.
-/

namespace SmartLampSpec

/-- RGB colour dictionary `{"r": _, "g": _, "b": _}` as used throughout
`lamp.py` and `hardware.py`.  No range restriction is imposed here because the
source imposes none when storing a colour. -/
structure Color where
  r : Int
  g : Int
  b : Int
deriving DecidableEq, Repr

/-- The lamp operating mode strings `"manual" | "auto" | "environmental"`
(`SmartLamp.set_mode`, `valid_modes`). -/
inductive Mode where
  | manual
  | auto
  | environmental
deriving DecidableEq, Repr

/-- The `trigger_type` strings passed to `SmartLamp.set_lamp_state`. -/
inductive Trigger where
  | manual
  | potentiometer
  | ml_prediction
  | environmental_alert
  | auto_timeout
  | system_restore
  | emergency_alert
deriving DecidableEq, Repr

/-- The mutable `self.current_state` dictionary of `SmartLamp`
(keys `is_on`, `brightness`, `color`, `mode`, `auto_mode_enabled`). -/
structure LampState where
  is_on : Bool
  brightness : Int
  color : Color
  mode : Mode
  auto_mode_enabled : Bool
deriving DecidableEq, Repr

/-- The coordinator object: `current_state` plus `last_user_interaction`
(a `datetime` or `None`) and the `components_status["hardware"]` flag that
gates hardware writes. -/
structure SmartLamp where
  state : LampState
  lastUserInteraction : Option ℚ
  hw : Bool
deriving DecidableEq, Repr

/-- A training-data entry produced via `ml_controller` / `DataLogger.log_action`
("InteractionRecord" in the spec): `log_lamp_state_change`, `log_color_change`,
`log_brightness_change` in `lamp.py`. -/
inductive MLRecord where
  | stateChange (is_on : Bool) (brightness : Int) (color : Color)
  | colorChange (color : Color)
  | brightnessChange (brightness : Int)
deriving DecidableEq, Repr

/-- The observable side effects of a coordinator operation, in program order:
`hwWrites` — calls to `hardware_controller.set_lamp_state(is_on, br, col)`;
`mlRecords` — ML training-data entries; `dbLogs` — `db_manager.log_lamp_state`
rows, identified by their trigger. -/
structure Effects where
  hwWrites : List (Bool × Int × Color)
  mlRecords : List MLRecord
  dbLogs : List Trigger
deriving DecidableEq, Repr

def Effects.empty : Effects := ⟨[], [], []⟩

def Effects.append (e₁ e₂ : Effects) : Effects :=
  ⟨e₁.hwWrites ++ e₂.hwWrites, e₁.mlRecords ++ e₂.mlRecords, e₁.dbLogs ++ e₂.dbLogs⟩

/-- Result of one coordinator operation: new controller state plus effects. -/
structure StepResult where
  lamp : SmartLamp
  eff : Effects
deriving DecidableEq, Repr

/-- Sequencing of two operations, concatenating their effects. -/
def StepResult.andThen (r : StepResult) (f : SmartLamp → StepResult) : StepResult :=
  ⟨(f r.lamp).lamp, r.eff.append (f r.lamp).eff⟩

/-- An operation that leaves the controller untouched and emits nothing. -/
def noop (lamp : SmartLamp) : StepResult := ⟨lamp, Effects.empty⟩

/-- The in-place updates of `self.current_state` performed at the top of
`SmartLamp.set_lamp_state` (lamp.py lines 228–238): `is_on` is assigned;
`brightness`, if supplied, is clamped with `max(0, min(100, brightness))`;
`color` and `mode`, if supplied, are stored verbatim. -/
def applyUpdates (st : LampState) (is_on : Bool) (brightness : Option Int)
    (color : Option Color) (mode : Option Mode) : LampState :=
  { st with
    is_on := is_on
    brightness := match brightness with
      | some b => max 0 (min 100 b)
      | none => st.brightness
    color := color.getD st.color
    mode := mode.getD st.mode }

/-- `SmartLamp.set_lamp_state` (lamp.py lines 224–276).  After the state
updates it (1) writes to the hardware when the hardware component is up,
(2) on a `manual` trigger sets `last_user_interaction = now` and logs an ML
training record, (3) logs the transition to the database, and (4) when
`is_on` is true resets the auto-off timer (`last_user_interaction = now`).
Steps (2) and (4) combine to: `lastUserInteraction` becomes `some now`
exactly when `is_on` or the trigger is `manual`. -/
def set_lamp_state (lamp : SmartLamp) (now : ℚ) (is_on : Bool)
    (brightness : Option Int) (color : Option Color) (mode : Option Mode)
    (trigger : Trigger) : StepResult :=
  let st := applyUpdates lamp.state is_on brightness color mode
  { lamp :=
      { state := st
        lastUserInteraction :=
          if is_on ∨ trigger = Trigger.manual then some now else lamp.lastUserInteraction
        hw := lamp.hw }
    eff :=
      { hwWrites := if lamp.hw then [(is_on, st.brightness, st.color)] else []
        mlRecords :=
          if trigger = Trigger.manual then [MLRecord.stateChange is_on st.brightness st.color]
          else []
        dbLogs := [trigger] } }

/-- `SmartLamp.set_color` (lamp.py lines 283–293): calls `set_lamp_state` with
the current `is_on`, only the colour supplied, then on a `manual` trigger logs
an additional colour-change training record. -/
def set_color (lamp : SmartLamp) (now : ℚ) (c : Color) (trigger : Trigger) : StepResult :=
  let r := set_lamp_state lamp now lamp.state.is_on none (some c) none trigger
  if trigger = Trigger.manual then
    ⟨r.lamp, r.eff.append ⟨[], [MLRecord.colorChange c], []⟩⟩
  else r

/-- `SmartLamp.set_brightness` (lamp.py lines 295–305). -/
def set_brightness (lamp : SmartLamp) (now : ℚ) (b : Int) (trigger : Trigger) : StepResult :=
  let r := set_lamp_state lamp now lamp.state.is_on (some b) none none trigger
  if trigger = Trigger.manual then
    ⟨r.lamp, r.eff.append ⟨[], [MLRecord.brightnessChange b], []⟩⟩
  else r

/-- `SmartLamp.toggle_lamp` (lamp.py lines 278–281). -/
def toggle_lamp (lamp : SmartLamp) (now : ℚ) (trigger : Trigger) : StepResult :=
  set_lamp_state lamp now (!lamp.state.is_on) none none none trigger

/-- `SmartLamp.set_mode` (lamp.py lines 307–333): stores the (valid) mode and
sets `auto_mode_enabled = (mode != "manual")`; brightness, colour, `is_on` and
the auto-off timer are untouched. -/
def set_mode (lamp : SmartLamp) (m : Mode) : SmartLamp :=
  { lamp with
    state := { lamp.state with mode := m, auto_mode_enabled := m ≠ Mode.manual } }

/-- `Settings.get_default_lamp_state()` with the default environment
(`DEFAULT_BRIGHTNESS = 80`, colour 255/255/255): off, brightness 80, white,
manual mode, auto mode disabled; `last_user_interaction` starts as `None`
(`SmartLamp.__init__`).  The hardware component is taken as initialized. -/
def default_lamp : SmartLamp :=
  { state :=
      { is_on := false, brightness := 80, color := ⟨255, 255, 255⟩
        mode := Mode.manual, auto_mode_enabled := false }
    lastUserInteraction := none
    hw := true }

/-- The coordinator states reachable from the default state through the two
operations that write `current_state` directly: `set_lamp_state` (through
which `toggle_lamp`, `set_color`, `set_brightness`, the monitors and the alert
handlers all funnel) and `set_mode`. -/
inductive Reachable : SmartLamp → Prop where
  | init : Reachable default_lamp
  | set_state (l : SmartLamp) (now : ℚ) (is_on : Bool) (b : Option Int)
      (c : Option Color) (m : Option Mode) (tr : Trigger) :
      Reachable l → Reachable (set_lamp_state l now is_on b c m tr).lamp
  | mode_change (l : SmartLamp) (m : Mode) :
      Reachable l → Reachable (set_mode l m)

/-- The mirror state kept by `HardwareController` (hardware.py lines 36–39). -/
structure HardwareState where
  current_brightness : Int
  current_color : Color
  is_lamp_on : Bool
deriving DecidableEq, Repr

/-- `HardwareController.set_brightness` (hardware.py lines 175–180):
`self.current_brightness = max(0, min(100, brightness))`. -/
def hw_set_brightness (hw : HardwareState) (b : Int) : HardwareState :=
  { hw with current_brightness := max 0 (min 100 b) }

/-- `Settings.AUTO_OFF_TIMEOUT_MINUTES` default (`settings.py` line 78). -/
def AUTO_OFF_TIMEOUT_MINUTES : Int := 30

/-- One check of the `SmartLamp._monitor_auto_off` loop body (lamp.py lines
416–437), performed every 60 seconds: when the lamp is on,
`last_user_interaction` is set, the timeout is positive, and the elapsed time
since the last interaction strictly exceeds `timedelta(minutes=30)`, it calls
`set_lamp_state(False, trigger_type="auto_timeout")`; otherwise nothing
happens. -/
def monitor_auto_off_check (lamp : SmartLamp) (now : ℚ) : StepResult :=
  match lamp.lastUserInteraction with
  | some t =>
      if lamp.state.is_on = true ∧ 0 < AUTO_OFF_TIMEOUT_MINUTES ∧
          (AUTO_OFF_TIMEOUT_MINUTES : ℚ) * 60 < now - t then
        set_lamp_state lamp now false none none none Trigger.auto_timeout
      else noop lamp
  | none => noop lamp

/-- `Settings.ML_PREDICTION_CONFIDENCE_THRESHOLD` default `0.75`
(`settings.py` line 42). -/
def ML_PREDICTION_CONFIDENCE_THRESHOLD : ℚ := 3 / 4

/-- The dictionary returned by `ml_controller.predict_lamp_state()` as read
by `_monitor_ml_predictions`: the keys `confidence` and `should_be_on`. -/
structure MLPrediction where
  confidence : ℚ
  should_be_on : Bool
deriving DecidableEq, Repr

/-- The dictionary returned by `ml_controller.predict_preferred_color()`:
the keys `confidence` and `color`. -/
structure ColorPrediction where
  confidence : ℚ
  color : Color
deriving DecidableEq, Repr

/-- One iteration of the `SmartLamp._monitor_ml_predictions` loop body
(lamp.py lines 439–465), given the prediction the ML component returned this
cycle.  Only when `confidence >= ML_PREDICTION_CONFIDENCE_THRESHOLD` does the
coordinator act; it then applies the predicted power state only when it
differs from the current one, and afterwards applies a colour prediction when
the confidence of that one exceeds `0.7`.  A sub-threshold prediction is discarded
with no state change and no effects. -/
def monitor_ml_predictions_step (lamp : SmartLamp) (now : ℚ)
    (pred : MLPrediction) (cpred : ColorPrediction) : StepResult :=
  if ML_PREDICTION_CONFIDENCE_THRESHOLD ≤ pred.confidence then
    if pred.should_be_on ≠ lamp.state.is_on then
      let r := set_lamp_state lamp now pred.should_be_on none none none Trigger.ml_prediction
      if (7 : ℚ) / 10 < cpred.confidence then
        r.andThen (fun l => set_color l now cpred.color Trigger.ml_prediction)
      else r
    else noop lamp
  else noop lamp

/-- `HardwareConfig.BUTTON_DEBOUNCE_TIME = 0.3` seconds
(`hardware_config.py` line 59). -/
def BUTTON_DEBOUNCE_TIME : ℚ := 3 / 10

/-- One observed press signal on a button, as handled inside
`HardwareController._monitor_buttons` (hardware.py lines 274–289): given the
value of `last_button_press` for the button, a signal at `now` fires the callback and
records `now` only when `now - last > BUTTON_DEBOUNCE_TIME`; otherwise the
signal is dropped and nothing is recorded or queued. -/
def button_signal (lastPress now : ℚ) : ℚ × Bool :=
  if BUTTON_DEBOUNCE_TIME < now - lastPress then (now, true) else (lastPress, false)

/-- Processing a sequence of press signals on one button, returning the final
`last_button_press` value and the number of callbacks fired. -/
def process_signals (lastPress : ℚ) : List ℚ → ℚ × Nat
  | [] => (lastPress, 0)
  | t :: ts =>
      let r := button_signal lastPress t
      let rest := process_signals r.1 ts
      (rest.1, (if r.2 then 1 else 0) + rest.2)

/-- `HardwareConfig.COLOR_PRESETS` (`hardware_config.py` lines 62–74), in
dictionary insertion order: white, warm_white, cool_white, red, green, blue,
yellow, purple, orange, pink, cyan. -/
def COLOR_PRESETS : List Color :=
  [⟨255, 255, 255⟩, ⟨255, 230, 180⟩, ⟨180, 220, 255⟩, ⟨255, 0, 0⟩,
   ⟨0, 255, 0⟩, ⟨0, 0, 255⟩, ⟨255, 255, 0⟩, ⟨128, 0, 128⟩,
   ⟨255, 165, 0⟩, ⟨255, 192, 203⟩, ⟨0, 255, 255⟩]

/-- `SmartLamp._on_color_button_pressed` (lamp.py lines 344–368).  Outside
manual mode the press is logged as ignored and nothing else happens (the
returned flag is `true` when the event was dropped).  In manual mode the
handler finds the index of the current colour among the presets (first match,
defaulting to 0), advances cyclically, and sets the next preset colour with a
`manual` trigger. -/
def on_color_button_pressed (lamp : SmartLamp) (now : ℚ) : StepResult × Bool :=
  if lamp.state.mode ≠ Mode.manual then (noop lamp, true)
  else
    let current := lamp.state.color
    let idx := (COLOR_PRESETS.findIdx? (fun c => c = current)).getD 0
    let nextColor := COLOR_PRESETS.getD ((idx + 1) % COLOR_PRESETS.length) ⟨255, 255, 255⟩
    (set_color lamp now nextColor Trigger.manual, false)

/-- The alert `type` strings produced by the sensor controller and consumed
by `_handle_environmental_alert`. -/
inductive AlertType where
  | earthquake
  | air_quality
  | temperature
deriving DecidableEq, Repr

/-- Alert severity strings. -/
inductive Severity where
  | low
  | medium
  | high
deriving DecidableEq, Repr

/-- A sensor alert dictionary as consumed by `SmartLamp._on_sensor_alert`:
`type`, `severity`, and (for temperature alerts) `data["temperature"]`. -/
structure Alert where
  type_ : AlertType
  severity : Severity
  temperature : ℚ
deriving DecidableEq, Repr

/-- `HardwareConfig.get_color_by_temperature` (`hardware_config.py` lines
121–136). -/
def get_color_by_temperature (t : ℚ) : Color :=
  if t < 10 then ⟨100, 150, 255⟩
  else if t < 15 then ⟨150, 200, 255⟩
  else if t < 20 then ⟨200, 230, 255⟩
  else if t < 25 then ⟨255, 255, 255⟩
  else if t < 30 then ⟨255, 230, 200⟩
  else if t < 35 then ⟨255, 200, 150⟩
  else ⟨255, 100, 100⟩

/-- `SmartLamp._emergency_flash` (lamp.py lines 509–530).  If the lamp is off
it is first turned on (`emergency_alert` trigger); the original colour is then
read from the current state; the lamp flashes three times (flash colour, then
black, each via `set_color`); finally, if the lamp was originally on, the
original colour is restored via `set_color`, and otherwise the lamp is turned
back off via `set_lamp_state(False)` — without restoring the colour. -/
def emergency_flash (lamp : SmartLamp) (now : ℚ) (c : Color) : StepResult :=
  let originalState := lamp.state.is_on
  let r0 := if lamp.state.is_on = true then noop lamp
            else set_lamp_state lamp now true none none none Trigger.emergency_alert
  let originalColor := r0.lamp.state.color
  let r6 :=
    ((((r0.andThen (fun l => set_color l now c Trigger.emergency_alert)).andThen
        (fun l => set_color l now ⟨0, 0, 0⟩ Trigger.emergency_alert)).andThen
        (fun l => set_color l now c Trigger.emergency_alert)).andThen
        (fun l => set_color l now ⟨0, 0, 0⟩ Trigger.emergency_alert)).andThen
        (fun l => set_color l now c Trigger.emergency_alert) |>.andThen
        (fun l => set_color l now ⟨0, 0, 0⟩ Trigger.emergency_alert)
  if originalState = true then
    r6.andThen (fun l => set_color l now originalColor Trigger.emergency_alert)
  else
    r6.andThen (fun l => set_lamp_state l now false none none none Trigger.emergency_alert)

/-- `SmartLamp._handle_environmental_alert` (lamp.py lines 490–507):
earthquake alerts flash red (`_emergency_flash`); air-quality alerts set an
orange warning colour; temperature alerts set the temperature-mapped colour,
both with an `environmental_alert` trigger. -/
def handle_environmental_alert (lamp : SmartLamp) (now : ℚ) (alert : Alert) : StepResult :=
  match alert.type_ with
  | AlertType.earthquake => emergency_flash lamp now ⟨255, 0, 0⟩
  | AlertType.air_quality => set_color lamp now ⟨255, 165, 0⟩ Trigger.environmental_alert
  | AlertType.temperature =>
      set_color lamp now (get_color_by_temperature alert.temperature) Trigger.environmental_alert

/-- `SmartLamp._on_sensor_alert` (lamp.py lines 467–488): after logging the
alert as a system event, the lamp responds (via
`_handle_environmental_alert`) exactly when the current mode is
`environmental` or the severity is `high`. -/
def on_sensor_alert (lamp : SmartLamp) (now : ℚ) (alert : Alert) : StepResult :=
  if lamp.state.mode = Mode.environmental ∨ alert.severity = Severity.high then
    handle_environmental_alert lamp now alert
  else noop lamp

/-- A concrete coordinator state: lamp on, manual mode, colour `(10, 20, 30)`,
last interaction at time 0 seconds. -/
def onLamp : SmartLamp :=
  { state :=
      { is_on := true, brightness := 80, color := ⟨10, 20, 30⟩
        mode := Mode.manual, auto_mode_enabled := false }
    lastUserInteraction := some 0
    hw := true }

/-- A concrete coordinator state: lamp off, manual mode, colour `(10, 20, 30)`,
last interaction at time 0 seconds. -/
def offLamp : SmartLamp :=
  { state :=
      { is_on := false, brightness := 80, color := ⟨10, 20, 30⟩
        mode := Mode.manual, auto_mode_enabled := false }
    lastUserInteraction := some 0
    hw := true }

/-- A concrete coordinator state in auto mode with the lamp on. -/
def autoLamp : SmartLamp :=
  { state :=
      { is_on := true, brightness := 80, color := ⟨255, 255, 255⟩
        mode := Mode.auto, auto_mode_enabled := true }
    lastUserInteraction := some 0
    hw := true }

end SmartLampSpec

namespace SmartLampSpec

/-- Preservation lemma: one `set_lamp_state` call keeps the stored brightness
inside `[0, 100]` provided it was inside before; when a brightness is
supplied, the clamp puts it inside unconditionally. -/
theorem set_lamp_state_brightness_bounds (l : SmartLamp) (now : ℚ) (io : Bool)
    (b : Option Int) (c : Option Color) (m : Option Mode) (tr : Trigger)
    (h : 0 ≤ l.state.brightness ∧ l.state.brightness ≤ 100) :
    0 ≤ (set_lamp_state l now io b c m tr).lamp.state.brightness ∧
      (set_lamp_state l now io b c m tr).lamp.state.brightness ≤ 100 := by
  cases b with
  | none => simpa [set_lamp_state, applyUpdates] using h
  | some b => simp [set_lamp_state, applyUpdates]

/-- C1.  Brightness invariant: every coordinator state reachable from the
default state has `0 ≤ brightness ≤ 100`; moreover, whatever integer
brightness a caller supplies to `set_lamp_state`, the stored brightness after
the transition lies in `[0, 100]` unconditionally, and
`HardwareController.set_brightness` clamps its stored mirror the same way. -/
theorem C1_brightness_invariant :
    (∀ l : SmartLamp, Reachable l → 0 ≤ l.state.brightness ∧ l.state.brightness ≤ 100) ∧
    (∀ (l : SmartLamp) (now : ℚ) (io : Bool) (b : Int) (c : Option Color)
        (m : Option Mode) (tr : Trigger),
      0 ≤ (set_lamp_state l now io (some b) c m tr).lamp.state.brightness ∧
        (set_lamp_state l now io (some b) c m tr).lamp.state.brightness ≤ 100) ∧
    (∀ (hw : HardwareState) (b : Int),
      0 ≤ (hw_set_brightness hw b).current_brightness ∧
        (hw_set_brightness hw b).current_brightness ≤ 100) := by
  refine ⟨?_, ?_, ?_⟩
  · intro l hl
    induction hl with
    | init => simp [default_lamp]
    | set_state l now io b c m tr _ ih =>
        exact set_lamp_state_brightness_bounds l now io b c m tr ih
    | mode_change l m _ ih => simpa [set_mode] using ih
  · intro l now io b c m tr
    simp [set_lamp_state, applyUpdates]
  · intro hw b
    simp [hw_set_brightness]

/-- C1 witness: the brightness bound instantiated at the concrete reachable
state `default_lamp`. -/
theorem C1_brightness_invariant_witness :
    0 ≤ default_lamp.state.brightness ∧ default_lamp.state.brightness ≤ 100 :=
  C1_brightness_invariant.1 default_lamp Reachable.init

/-- C2 counterexample: `set_lamp_state` does not reject an out-of-range
colour.  Applying it to the default state with colour `(300, 0, 0)` stores
that colour verbatim — the resulting state differs from the original (so the
transition is not a no-op) and its red channel exceeds 255. -/
theorem C2_color_rejection_counterexample :
    (set_lamp_state default_lamp 0 true none (some ⟨300, 0, 0⟩) none
        Trigger.manual).lamp.state.color = ⟨300, 0, 0⟩ ∧
    (set_lamp_state default_lamp 0 true none (some ⟨300, 0, 0⟩) none
        Trigger.manual).lamp.state ≠ default_lamp.state ∧
    ¬ (set_lamp_state default_lamp 0 true none (some ⟨300, 0, 0⟩) none
        Trigger.manual).lamp.state.color.r ≤ 255 := by
  refine ⟨rfl, ?_, by decide⟩
  decide

/-- C2 amended: `set_lamp_state` performs no colour validation at all — any
supplied colour is stored verbatim (the stored colour equals the supplied
colour for every state, time, brightness, mode and trigger), so an
out-of-range colour transition is applied rather than rejected. -/
theorem C2_color_stored_verbatim (l : SmartLamp) (now : ℚ) (io : Bool)
    (b : Option Int) (c : Color) (m : Option Mode) (tr : Trigger) :
    (set_lamp_state l now io b (some c) m tr).lamp.state.color = c := by
  simp [set_lamp_state, applyUpdates]

/-- C8 counterexample: a transition with `trigger_type = "ml_prediction"`
writes no ML training record, contradicting the claim that an
InteractionRecord is written exactly for `manual` or `ml_prediction`. -/
theorem C8_ml_prediction_record_counterexample :
    (set_lamp_state default_lamp 0 true none none none
        Trigger.ml_prediction).eff.mlRecords = [] := by
  decide

/-- C8 amended: `set_lamp_state` writes an ML training record (an
InteractionRecord) exactly when the trigger is `manual`; in particular
`ml_prediction`, `auto_timeout`, alert-driven and restore transitions write
no training data (they are logged to the database lamp-state log only). -/
theorem C8_training_record_iff_manual (l : SmartLamp) (now : ℚ) (io : Bool)
    (b : Option Int) (c : Option Color) (m : Option Mode) (tr : Trigger) :
    (set_lamp_state l now io b c m tr).eff.mlRecords ≠ [] ↔ tr = Trigger.manual := by
  cases tr <;> simp [set_lamp_state]

/-- C10.  Every `set_lamp_state` call with `is_on = true` resets the
inactivity auto-off timer (`last_user_interaction = now`), regardless of the
trigger type — `potentiometer`, `ml_prediction`, `environmental_alert`,
`emergency_alert`, `system_restore` included. -/
theorem C10_on_resets_auto_off_timer (l : SmartLamp) (now : ℚ)
    (b : Option Int) (c : Option Color) (m : Option Mode) (tr : Trigger) :
    (set_lamp_state l now true b c m tr).lamp.lastUserInteraction = some now := by
  simp [set_lamp_state]

/-- C5.  Confidence gate: a prediction whose confidence is strictly below
`ML_PREDICTION_CONFIDENCE_THRESHOLD` is discarded silently by
`_monitor_ml_predictions` — the coordinator state is unchanged and no
hardware write, no ML training record and no database log entry is emitted,
whatever colour prediction accompanies it. -/
theorem C5_confidence_gate (lamp : SmartLamp) (now : ℚ)
    (pred : MLPrediction) (cpred : ColorPrediction)
    (h : pred.confidence < ML_PREDICTION_CONFIDENCE_THRESHOLD) :
    monitor_ml_predictions_step lamp now pred cpred = noop lamp ∧
    (monitor_ml_predictions_step lamp now pred cpred).lamp = lamp ∧
    (monitor_ml_predictions_step lamp now pred cpred).eff.hwWrites = [] ∧
    (monitor_ml_predictions_step lamp now pred cpred).eff.mlRecords = [] ∧
    (monitor_ml_predictions_step lamp now pred cpred).eff.dbLogs = [] := by
  have h' : ¬ ML_PREDICTION_CONFIDENCE_THRESHOLD ≤ pred.confidence := not_le.mpr h
  simp [monitor_ml_predictions_step, h', noop, Effects.empty]

/-- C5 witness: a prediction with confidence `0.6` against the configured
threshold `0.75` changes nothing on the concrete state `onLamp`. -/
theorem C5_confidence_gate_witness :
    monitor_ml_predictions_step onLamp 0 ⟨3 / 5, false⟩ ⟨1, ⟨1, 2, 3⟩⟩ = noop onLamp :=
  (C5_confidence_gate onLamp 0 ⟨3 / 5, false⟩ ⟨1, ⟨1, 2, 3⟩⟩
    (by norm_num [ML_PREDICTION_CONFIDENCE_THRESHOLD])).1

/-- C7.  Debounce: a press signal that fires the callback, followed by a
second signal on the same button less than `BUTTON_DEBOUNCE_TIME` later,
produces exactly one callback; the second signal is dropped without being
queued and without updating the recorded press time. -/
theorem C7_debounce (lp t₁ t₂ : ℚ)
    (h₁ : BUTTON_DEBOUNCE_TIME < t₁ - lp) (h₂ : t₂ - t₁ < BUTTON_DEBOUNCE_TIME) :
    process_signals lp [t₁, t₂] = (t₁, 1) := by
  have h₂' : ¬ BUTTON_DEBOUNCE_TIME < t₂ - t₁ := not_lt.mpr (le_of_lt h₂)
  simp [process_signals, button_signal, h₁, h₂']

/-- C7 witness: two press signals 50 ms apart (at 1 s and 1.05 s, with the
recorded press time initially 0) fire exactly one callback. -/
theorem C7_debounce_witness : process_signals 0 [1, 21 / 20] = (1, 1) :=
  C7_debounce 0 1 (21 / 20) (by norm_num [BUTTON_DEBOUNCE_TIME])
    (by norm_num [BUTTON_DEBOUNCE_TIME])

/-- C9.  Mode gating: a colour-button press while the mode is `auto` is a
no-op — the coordinator state is unchanged, no transition is applied, no
effect is emitted, and the handler reports the event as dropped. -/
theorem C9_color_cycle_auto_noop (lamp : SmartLamp) (now : ℚ)
    (h : lamp.state.mode = Mode.auto) :
    on_color_button_pressed lamp now = (noop lamp, true) ∧
    (on_color_button_pressed lamp now).1.lamp = lamp ∧
    (on_color_button_pressed lamp now).1.eff = Effects.empty := by
  have h' : lamp.state.mode ≠ Mode.manual := by simp [h]
  simp [on_color_button_pressed, h', noop]

/-- C9 witness: the colour-button press on the concrete auto-mode state
`autoLamp` is dropped with no state change. -/
theorem C9_color_cycle_auto_noop_witness :
    on_color_button_pressed autoLamp 0 = (noop autoLamp, true) :=
  (C9_color_cycle_auto_noop autoLamp 0 rfl).1

/-- Helper: an auto-off check on a lamp that is already off does nothing. -/
theorem monitor_auto_off_check_of_off (l : SmartLamp) (now : ℚ)
    (h : l.state.is_on = false) : monitor_auto_off_check l now = noop l := by
  cases hL : l.lastUserInteraction with
  | none => simp [monitor_auto_off_check, hL]
  | some t => simp [monitor_auto_off_check, hL, h]

/-- Helper: when the lamp is on, the last interaction was at `T`, and the
check time strictly exceeds `T` plus the timeout, the check body is the
auto-off transition. -/
theorem monitor_auto_off_check_fires (l : SmartLamp) (T now : ℚ)
    (hOn : l.state.is_on = true) (hT : l.lastUserInteraction = some T)
    (hlt : (AUTO_OFF_TIMEOUT_MINUTES : ℚ) * 60 < now - T) :
    monitor_auto_off_check l now =
      set_lamp_state l now false none none none Trigger.auto_timeout := by
  simp only [monitor_auto_off_check, hT]
  rw [if_pos ⟨hOn, by norm_num [AUTO_OFF_TIMEOUT_MINUTES], hlt⟩]

/-- Helper: when the elapsed time does not exceed the timeout, the check does
nothing. -/
theorem monitor_auto_off_check_waits (l : SmartLamp) (T now : ℚ)
    (hT : l.lastUserInteraction = some T)
    (hle : ¬ (AUTO_OFF_TIMEOUT_MINUTES : ℚ) * 60 < now - T) :
    monitor_auto_off_check l now = noop l := by
  simp only [monitor_auto_off_check, hT]
  rw [if_neg (fun hc => hle hc.2.2)]

/-- C6 counterexample: with the lamp on and the last interaction at `T = 0`,
the auto-off check performed exactly at `T + 30` minutes (1800 s) performs no
transition — the elapsed-time comparison is strict, so the lamp is still on —
contradicting the claim that the `auto_timeout` transition occurs at
`T + 30min`. -/
theorem C6_auto_off_counterexample :
    monitor_auto_off_check onLamp 1800 = noop onLamp ∧
    (monitor_auto_off_check onLamp 1800).lamp.state.is_on = true ∧
    (monitor_auto_off_check onLamp 1800).eff.dbLogs = [] := by
  have h : monitor_auto_off_check onLamp 1800 = noop onLamp := by
    refine monitor_auto_off_check_waits onLamp 0 1800 rfl ?_
    norm_num [AUTO_OFF_TIMEOUT_MINUTES]
  exact ⟨h, by rw [h]; rfl, by rw [h]; rfl⟩

/-- C6 amended.  With the lamp on and the last accepted interaction at time
`T`: an auto-off check at or before `T + 30min` does nothing; a check
strictly after `T + 30min` performs exactly one transition to
`is_on = false` tagged `trigger = auto_timeout` (one database row), after
which any further check does nothing; the behaviour is independent of the
mode; and every manual `set_lamp_state` call resets the inactivity timer. -/
theorem C6_auto_off (lamp : SmartLamp) (T : ℚ)
    (hOn : lamp.state.is_on = true) (hT : lamp.lastUserInteraction = some T) :
    (∀ now : ℚ, now ≤ T + (AUTO_OFF_TIMEOUT_MINUTES : ℚ) * 60 →
        monitor_auto_off_check lamp now = noop lamp) ∧
    (∀ now : ℚ, T + (AUTO_OFF_TIMEOUT_MINUTES : ℚ) * 60 < now →
        (monitor_auto_off_check lamp now).lamp.state.is_on = false ∧
        (monitor_auto_off_check lamp now).eff.dbLogs = [Trigger.auto_timeout] ∧
        ∀ now₂ : ℚ, monitor_auto_off_check (monitor_auto_off_check lamp now).lamp now₂ =
          noop (monitor_auto_off_check lamp now).lamp) ∧
    (∀ (m : Mode) (now : ℚ),
        (monitor_auto_off_check (set_mode lamp m) now).eff.dbLogs =
          (monitor_auto_off_check lamp now).eff.dbLogs) ∧
    (∀ (now' : ℚ) (io : Bool) (b : Option Int) (c : Option Color) (m : Option Mode),
        (set_lamp_state lamp now' io b c m Trigger.manual).lamp.lastUserInteraction =
          some now') := by
  refine ⟨?_, ?_, ?_, ?_⟩
  · intro now hnow
    refine monitor_auto_off_check_waits lamp T now hT ?_
    rw [not_lt]
    linarith
  · intro now hnow
    have hres := monitor_auto_off_check_fires lamp T now hOn hT (by linarith)
    refine ⟨?_, ?_, ?_⟩
    · rw [hres]; simp [set_lamp_state, applyUpdates]
    · rw [hres]; simp [set_lamp_state]
    · intro now₂
      refine monitor_auto_off_check_of_off _ now₂ ?_
      rw [hres]; simp [set_lamp_state, applyUpdates]
  · intro m now
    by_cases hc : (AUTO_OFF_TIMEOUT_MINUTES : ℚ) * 60 < now - T
    · rw [monitor_auto_off_check_fires lamp T now hOn hT hc,
        monitor_auto_off_check_fires (set_mode lamp m) T now (by simpa [set_mode] using hOn)
          (by simpa [set_mode] using hT) hc]
      simp [set_lamp_state]
    · rw [monitor_auto_off_check_waits lamp T now hT hc,
        monitor_auto_off_check_waits (set_mode lamp m) T now
          (by simpa [set_mode] using hT) hc]
      rfl
  · intro now' io b c m
    simp [set_lamp_state]

/-- C6 witness: on the concrete state `onLamp` (on, last interaction at
`T = 0`), the check at 1800 s does nothing and the check at 1801 s turns the
lamp off with one `auto_timeout` log row. -/
theorem C6_auto_off_witness :
    monitor_auto_off_check onLamp 1800 = noop onLamp ∧
    (monitor_auto_off_check onLamp 1801).lamp.state.is_on = false ∧
    (monitor_auto_off_check onLamp 1801).eff.dbLogs = [Trigger.auto_timeout] :=
  ⟨(C6_auto_off onLamp 0 rfl rfl).1 1800 (by norm_num [AUTO_OFF_TIMEOUT_MINUTES]),
   ((C6_auto_off onLamp 0 rfl rfl).2.1 1801 (by norm_num [AUTO_OFF_TIMEOUT_MINUTES])).1,
   ((C6_auto_off onLamp 0 rfl rfl).2.1 1801 (by norm_num [AUTO_OFF_TIMEOUT_MINUTES])).2.1⟩

/-- C3 counterexample: a high-severity earthquake alert arriving while the
lamp is OFF with colour `(10, 20, 30)` does not restore the pre-alert state
verbatim: after the flash sequence the stored colour is `(0, 0, 0)` (the last
flash-off colour), not `(10, 20, 30)`, so the universal "from any
prior lamp state" fails. -/
theorem C3_emergency_flash_counterexample :
    (on_sensor_alert offLamp 5 ⟨AlertType.earthquake, Severity.high, 20⟩).lamp.state.color
      = ⟨0, 0, 0⟩ ∧
    (on_sensor_alert offLamp 5 ⟨AlertType.earthquake, Severity.high, 20⟩).lamp.state
      ≠ offLamp.state := by
  constructor
  · rfl
  · intro h
    have h0 : (on_sensor_alert offLamp 5
        ⟨AlertType.earthquake, Severity.high, 20⟩).lamp.state.color = ⟨0, 0, 0⟩ := rfl
    rw [h] at h0
    exact absurd h0 (by decide)

/-- C3 amended.  A high-severity earthquake alert pre-empts in every mode and
runs the bounded 3-cycle flash sequence; if the lamp was ON pre-alert the
pre-alert state (is_on, brightness, color, mode) is restored verbatim — in
particular the hardware sees exactly red/black three times and then the
original colour — but if the lamp was OFF pre-alert only is_on, brightness
and mode are restored, while the colour is left at `(0, 0, 0)`. -/
theorem C3_emergency_flash_restore (lamp : SmartLamp) (now temp : ℚ) :
    (lamp.state.is_on = true →
      (on_sensor_alert lamp now ⟨AlertType.earthquake, Severity.high, temp⟩).lamp.state
        = lamp.state ∧
      (lamp.hw = true →
        (on_sensor_alert lamp now ⟨AlertType.earthquake, Severity.high, temp⟩).eff.hwWrites =
          [(true, lamp.state.brightness, ⟨255, 0, 0⟩),
           (true, lamp.state.brightness, ⟨0, 0, 0⟩),
           (true, lamp.state.brightness, ⟨255, 0, 0⟩),
           (true, lamp.state.brightness, ⟨0, 0, 0⟩),
           (true, lamp.state.brightness, ⟨255, 0, 0⟩),
           (true, lamp.state.brightness, ⟨0, 0, 0⟩),
           (true, lamp.state.brightness, lamp.state.color)])) ∧
    (lamp.state.is_on = false →
      (on_sensor_alert lamp now ⟨AlertType.earthquake, Severity.high, temp⟩).lamp.state.is_on
        = false ∧
      (on_sensor_alert lamp now ⟨AlertType.earthquake, Severity.high, temp⟩).lamp.state.brightness
        = lamp.state.brightness ∧
      (on_sensor_alert lamp now ⟨AlertType.earthquake, Severity.high, temp⟩).lamp.state.mode
        = lamp.state.mode ∧
      (on_sensor_alert lamp now ⟨AlertType.earthquake, Severity.high, temp⟩).lamp.state.color
        = ⟨0, 0, 0⟩) := by
  obtain ⟨⟨io, br, col, md, am⟩, lui, hw⟩ := lamp
  constructor
  · intro h
    simp only at h
    subst h
    constructor
    · simp [on_sensor_alert, handle_environmental_alert, emergency_flash, set_color,
        set_lamp_state, applyUpdates, StepResult.andThen, Effects.append, noop,
        Effects.empty]
    · intro hhw
      simp only at hhw
      subst hhw
      simp [on_sensor_alert, handle_environmental_alert, emergency_flash, set_color,
        set_lamp_state, applyUpdates, StepResult.andThen, Effects.append, noop,
        Effects.empty]
  · intro h
    simp only at h
    subst h
    simp [on_sensor_alert, handle_environmental_alert, emergency_flash, set_color,
      set_lamp_state, applyUpdates, StepResult.andThen, Effects.append, noop,
      Effects.empty]

/-- C3 witness: the concrete case given in the spec — mode `manual`, `is_on = true`,
colour `(10, 20, 30)` — is restored exactly after the flash sequence. -/
theorem C3_emergency_flash_restore_witness :
    (on_sensor_alert onLamp 5 ⟨AlertType.earthquake, Severity.high, 20⟩).lamp.state
      = onLamp.state ∧
    (on_sensor_alert onLamp 5 ⟨AlertType.earthquake, Severity.high, 20⟩).lamp.state.is_on
      = true ∧
    (on_sensor_alert onLamp 5 ⟨AlertType.earthquake, Severity.high, 20⟩).lamp.state.color
      = ⟨10, 20, 30⟩ := by
  have h := (C3_emergency_flash_restore onLamp 5 20).1 rfl
  exact ⟨h.1, by rw [h.1]; rfl, by rw [h.1]; rfl⟩

end SmartLampSpec
